import Mathlib

/-!
Verification of the MelodyMind music-companion bot (src/main.py and
src/backend/scripts/download.py) against its natural-language
specification.

The Python source is shallowly embedded below.  External interactions
(the Spotify HTTP token endpoint, yt-dlp extraction, the LLM, the
Telegram transport) are modelled as explicit oracle arguments: each
embedded function takes, as an extra parameter, the outcome the external
world would have produced at the corresponding call site, and otherwise
follows the control flow of the Python code line by line.  Machine
integers do not overflow in any of the modelled code paths, so natural
numbers are used directly.  The only floating-point computation that
matters (the 50.5 MB size check in download_youtube_audio_sync) divides
a byte count below 2^53 by the exact power of two 2^20 and compares with
the exactly-representable constant 50.5, so it is equivalent to the
exact integer comparison sizeBytes > 52953088 used here.
-/

namespace MelodyMind

/-! ### Python string primitives

Character-list implementations of the Python string operations the
embedded code uses (`startswith`, `lower`, slicing, `strip`, `len`),
so that every definition evaluates by kernel reduction. -/

/-- Python `s.startswith(k)`. -/
def pyStartsWith (s k : String) : Bool := k.data.isPrefixOf s.data

/-- Python `s.lower()` (ASCII, which covers all embedded uses). -/
def pyLower (s : String) : String := ⟨s.data.map Char.toLower⟩

/-- Python `s[n:]` (by characters). -/
def pyDrop (s : String) (n : Nat) : String := ⟨s.data.drop n⟩

/-- Python `len(s)` (characters). -/
def pyLen (s : String) : Nat := s.data.length

def pySpace (c : Char) : Bool := c = ' ' ∨ c = '\t' ∨ c = '\n' ∨ c = '\r'

/-- Python `s.strip()` (ASCII whitespace, which covers all embedded
uses). -/
def pyStrip (s : String) : String :=
  ⟨((s.data.dropWhile pySpace).reverse.dropWhile pySpace).reverse⟩

/-! ### Credential vault (Fernet cipher model)

main.py encrypts tokens with a process-global Fernet cipher.  A Fernet
ciphertext decrypts to the original plaintext under the key that
produced it and fails to decrypt (raises) under any other key or when
the bytes are corrupt.  We model a ciphertext as the pair of the
producing key and the plaintext; decryption under a key checks the key.
-/

structure Ciph where
  key : Nat
  plain : String
deriving DecidableEq, Repr

def encrypt (key : Nat) (s : String) : Ciph := ⟨key, s⟩

def decrypt (key : Nat) (c : Ciph) : Option String :=
  if c.key = key then some c.plain else none

/-! ### Spotify token state

`user_contexts[user_id]["spotify"]` is a Python dict that may be absent
(`none` below), empty, or hold any subset of the keys `access_token`,
`refresh_token` (Fernet ciphertexts) and `expires_at` (a float
timestamp, modelled as `Nat`).
-/

structure SpotifyData where
  access_token : Option Ciph
  refresh_token : Option Ciph
  expires_at : Option Nat
deriving DecidableEq, Repr

def SpotifyData.empty : SpotifyData := ⟨none, none, none⟩

/-- The user's spotify dict: `none` when the "spotify" key is absent
from the user's context dict. -/
abbrev SpotifyState := Option SpotifyData

/-! ### Outcome of the HTTP POST to the Spotify token endpoint

`refresh_spotify_token` posts to accounts.spotify.com.  The possible
outcomes at that call site, as distinguished by the Python code:
a 2xx response carrying a JSON body (with or without an `access_token`,
and optionally a new `refresh_token` and an `expires_in`); an
`aiohttp.ClientError` (which carries an HTTP status when it is a
response error, e.g. 400 for invalid_grant); or any other exception. -/

inductive HttpTokenResult where
  | ok (tokenAccess : Option String) (tokenRefresh : Option String) (expiresIn : Nat)
  | clientError (status : Option Nat)
  | otherError
deriving DecidableEq, Repr

/-- Result of a token-refresh call: the returned plaintext access token
(`none` on failure) and the user's spotify dict after the call. -/
structure RefreshResult where
  returned : Option String
  spotify : SpotifyState
deriving DecidableEq, Repr

/-- Embedding of `refresh_spotify_token` (main.py lines 237-298).
`key` is the process Fernet key, `now` the current UTC timestamp, and
`http` the outcome of the POST to the token endpoint (consulted only if
the code reaches the HTTP call).  Credentials are assumed configured
(the unconfigured branch returns `none` without touching state and is
irrelevant to the claims). -/
def refresh_spotify_token (key : Nat) (now : Nat) (sp : SpotifyState)
    (http : HttpTokenResult) : RefreshResult :=
  match sp with
  | none => ⟨none, sp⟩          -- no "spotify" dict ⇒ no refresh token stored
  | some d =>
    match d.refresh_token with
    | none => ⟨none, sp⟩        -- lines 242-244: no refresh token
    | some encRefresh =>
      match decrypt key encRefresh with
      | none =>
        -- lines 252-257: decryption failed ⇒ clear the spotify dict
        ⟨none, some SpotifyData.empty⟩
      | some refreshTokenStr =>
        match http with
        | .ok tokenAccess tokenRefresh expiresIn =>
          match tokenAccess with
          | none => ⟨none, sp⟩  -- lines 275-277: 2xx but no access_token
          | some newAccess =>
            -- lines 279-288: re-encrypt and replace all three fields
            let expiresAt := now + expiresIn - 60
            let newRefresh := tokenRefresh.getD refreshTokenStr
            ⟨some newAccess,
             some ⟨some (encrypt key newAccess), some (encrypt key newRefresh),
                   some expiresAt⟩⟩
        | .clientError status =>
          -- lines 289-295: HTTP 400 (invalid_grant) clears the dict,
          -- any other client error leaves state untouched
          if status = some 400 then ⟨none, some SpotifyData.empty⟩
          else ⟨none, sp⟩
        | .otherError => ⟨none, sp⟩   -- lines 296-298
/-- Result of `get_user_spotify_access_token`: the plaintext token (or
`none`), the spotify dict afterwards, and whether a refresh was
attempted on the way. -/
structure AccessTokenResult where
  returned : Option String
  spotify : SpotifyState
  refreshAttempted : Bool
deriving DecidableEq, Repr

/-- Embedding of `get_user_spotify_access_token` (main.py lines
300-316): return the stored access token if present, unexpired and
decryptable; otherwise fall through to `refresh_spotify_token`. -/
def get_user_spotify_access_token (key : Nat) (now : Nat) (sp : SpotifyState)
    (http : HttpTokenResult) : AccessTokenResult :=
  let encAccess := (sp.map SpotifyData.access_token).join
  let expiresAt := (sp.map SpotifyData.expires_at).join
  match encAccess with
  | none =>
    let r := refresh_spotify_token key now sp http
    ⟨r.returned, r.spotify, true⟩
  | some c =>
    if (expiresAt.map fun t => decide (now > t)).getD false then
      let r := refresh_spotify_token key now sp http
      ⟨r.returned, r.spotify, true⟩
    else
      match decrypt key c with
      | some tok => ⟨some tok, sp, false⟩
      | none =>
        -- lines 312-316: decryption failed, attempt refresh as repair
        let r := refresh_spotify_token key now sp http
        ⟨r.returned, r.spotify, true⟩

/-! ### Session store

`user_contexts[user_id]` is created lazily with the default
`{"mood": None, "preferences": [], "conversation_history": [], "spotify": {}}`.
-/

structure ChatMsg where
  role : String
  content : String
deriving DecidableEq, Repr

structure UserCtx where
  mood : Option String
  preferences : List String
  conversation_history : List ChatMsg
  spotify : SpotifyState
deriving DecidableEq, Repr

def UserCtx.default : UserCtx := ⟨none, [], [], some SpotifyData.empty⟩

/-- Python `l[-12:]`: the most recent 12 entries. -/
def lastTwelve (l : List ChatMsg) : List ChatMsg := l.drop (l.length - 12)

/-- Embedding of `generate_chat_response` (main.py lines 495-551),
restricted to its effect on the stored context and its returned reply.
`aiReply` is the outcome of the OpenAI chat-completion call: `some r`
when the call returns reply text `r`, `none` when it raises.  The
function first truncates the stored history to its last 12 entries
(line 504), builds the prompt, and only on a successful completion
appends the user message and the reply to the stored history (lines
544-547). -/
def generate_chat_response (ctx : UserCtx) (message : String)
    (aiReply : Option String) : String × UserCtx :=
  let truncated := lastTwelve ctx.conversation_history
  match aiReply with
  | some reply =>
    (reply, { ctx with conversation_history :=
        truncated ++ [⟨"user", message⟩, ⟨"assistant", reply⟩] })
  | none =>
    ("I'm having a little trouble thinking of a reply right now. Maybe we can talk about your favorite song instead?",
     { ctx with conversation_history := truncated })

/-- Embedding of `clear_history` (main.py lines 1658-1676) acting on one
user's slot of `user_contexts` (`none` when the user has no context
yet).  Returns the slot after the call and the `cleared` flag that
selects the reply text. -/
def clear_history (slot : Option UserCtx) : Option UserCtx × Bool :=
  match slot with
  | none => (none, false)
  | some c =>
    if c.conversation_history ≠ [] then
      (some { c with conversation_history := [] }, true)
    else
      (some c, false)

/-! ### Account-linking flow: the AwaitingCode state

Conversation states (main.py line 85): `MOOD, PREFERENCE, ACTION,
SPOTIFY_CODE = range(4)`; `ConversationHandler.END` is `-1` in the
Telegram library.
-/

def MOOD : Int := 0
def PREFERENCE : Int := 1
def SPOTIFY_CODE : Int := 3
def CONV_END : Int := -1

/-- Token data returned by `get_user_spotify_token` (the
authorization-code exchange, main.py lines 205-235): the JSON body of a
2xx response plus the computed `expires_at`.  `none` models every
failure path of that call. -/
structure TokenData where
  tokenAccess : Option String
  tokenRefresh : Option String
  expires_at : Nat
deriving DecidableEq, Repr

/-- Result of `spotify_code_handler`: the conversation state returned,
the user's context slot afterwards, whether the "too short" rejection
message was sent, and whether the code exchange was attempted. -/
structure CodeHandlerResult where
  state : Int
  ctx : UserCtx
  tooShortMsg : Bool
  exchangeAttempted : Bool
deriving DecidableEq, Repr

/-- The code extracted by `spotify_code_handler` (main.py lines
1012-1017): the first command argument for `/spotify_code`, the raw
message text when it is not a slash command, otherwise nothing. -/
def extract_code (messageText : String) (args : List String) : Option String :=
  if pyStartsWith messageText "/spotify_code" ∧ args ≠ [] then args.head?
  else if ¬ pyStartsWith messageText "/" then some messageText
  else none

/-- Embedding of `spotify_code_handler` (main.py lines 1006-1066).
`key` is the Fernet key and `exchange` the outcome of the
authorization-code exchange, consulted only when a plausible code is
present.  The message text is assumed already stripped (the handler
strips it on entry). -/
def spotify_code_handler (key : Nat) (messageText : String)
    (args : List String) (ctx : UserCtx) (exchange : Option TokenData) :
    CodeHandlerResult :=
  let code := extract_code messageText args
  match code with
  | none => ⟨SPOTIFY_CODE, ctx, true, false⟩           -- lines 1020-1026
  | some c =>
    if pyLen c < 50 then ⟨SPOTIFY_CODE, ctx, true, false⟩
    else
      match exchange with
      | none => ⟨SPOTIFY_CODE, ctx, false, true⟩       -- lines 1031-1037
      | some td =>
        match td.tokenAccess, td.tokenRefresh with
        | some acc, some rf =>
          -- lines 1040-1046: store the encrypted pair and the expiry
          let sp : SpotifyData :=
            { access_token := some (encrypt key acc),
              refresh_token := some (encrypt key rf),
              expires_at := some td.expires_at }
          ⟨CONV_END, { ctx with spotify := some sp }, false, true⟩
        | _, _ => ⟨SPOTIFY_CODE, ctx, false, true⟩     -- missing token in body

/-! ### YouTube URL recognition

`is_valid_youtube_url` (main.py lines 346-354) applies `re.search` with
the pattern
`(?:https?:\/\/)?(?:www\.)?(?:youtube\.com\/(?:watch\?v=|embed\/|v\/|shorts\/)|youtu\.be\/)([a-zA-Z0-9_-]{11})`.
Since the scheme and `www.` groups are optional and `re.search` scans
from every position, the pattern matches iff the text contains one of
the five host/path markers followed immediately by 11 video-id
characters. -/

def isIdChar (c : Char) : Bool :=
  ('a' ≤ c ∧ c ≤ 'z') ∨ ('A' ≤ c ∧ c ≤ 'Z') ∨ ('0' ≤ c ∧ c ≤ '9') ∨
    c = '_' ∨ c = '-'

def ytMarkers : List (List Char) :=
  ["youtube.com/watch?v=", "youtube.com/embed/", "youtube.com/v/",
   "youtube.com/shorts/", "youtu.be/"].map String.toList

/-- Does one of the markers, followed by 11 id characters, start at the
head of `cs`? -/
def ytMatchHere (cs : List Char) : Bool :=
  ytMarkers.any fun m =>
    decide (cs.take m.length = m) &&
      (let rest := (cs.drop m.length).take 11
       decide (rest.length = 11) && rest.all isIdChar)

def ytSearch : List Char → Bool
  | [] => false
  | c :: rest => ytMatchHere (c :: rest) || ytSearch rest

def is_valid_youtube_url (url : String) : Bool :=
  decide (url ≠ "") && ytSearch url.data

/-! ### Intent routing in `enhanced_handle_message` -/

/-- The result of the LLM call `is_music_request` (main.py lines
626-675): a boolean flag and an optional non-empty query (the Python
function normalizes empty/blank queries to `None`). -/
structure AiMusicEval where
  isMusic : Bool
  songQuery : Option String
deriving DecidableEq, Repr

inductive Intent where
  | directLink (url : String)
  | musicRequest (q : String)
  | lyricsRequest (q : String)
  | genericChat
deriving DecidableEq, Repr

/-- The fixed lyrics-phrase list (main.py line 1618). -/
def lyrics_keywords_precise : List String :=
  ["lyrics for", "lyrics to", "get lyrics for", "find lyrics for",
   "what are the lyrics to", "song lyrics for"]

/-- The heuristic lyrics scan (main.py lines 1618-1628): the first
keyword that the lowercased text starts with, provided the stripped
remainder is non-empty, yields that remainder as query. -/
def lyricsCandidate (text : String) : Option String :=
  (lyrics_keywords_precise.filterMap fun kw =>
    if pyStartsWith (pyLower text) kw then
      let q := pyStrip (pyDrop text (pyLen kw))
      if q ≠ "" then some q else none
    else none).head?

/-- Routing skeleton of `enhanced_handle_message` (main.py lines
1548-1655) for a stripped message `text`: which branch handles the
message, and whether the LLM music-request classification was invoked.
The Python handler checks, in order: a YouTube URL (line 1560), then it
always awaits `is_music_request` (line 1581) and takes the music branch
when the flag and a query are present (line 1582), then the heuristic
lyrics scan (lines 1618-1630), then generic chat.  `ai` is the outcome
the LLM call would produce. -/
def enhanced_handle_message_route (text : String) (ai : AiMusicEval) :
    Intent × Bool :=
  if is_valid_youtube_url text then (.directLink text, false)
  else
    match ai.isMusic, ai.songQuery with
    | true, some q => (.musicRequest q, true)
    | _, _ =>
      match lyricsCandidate text with
      | some q => (.lyricsRequest q, true)
      | none => (.genericChat, true)

/-! ### Mood capture -/

/-- The mood vocabulary accepted by `detect_mood_from_text`
(main.py line 613). -/
def valid_moods : List String :=
  ["happy", "sad", "anxious", "excited", "calm", "angry", "neutral",
   "energetic", "relaxed", "focused", "nostalgic"]

/-- The normalization map of `detect_mood_from_text`
(main.py lines 607-610). -/
def mood_map (raw : String) : String :=
  if raw = "positive" then "happy"
  else if raw = "negative" then "sad"
  else if raw = "joyful" then "happy"
  else if raw = "depressed" then "sad"
  else if raw = "chill" then "relaxed"
  else if raw = "stressed" then "anxious"
  else if raw = "hyper" then "energetic"
  else if raw = "peaceful" then "calm"
  else raw

/-- Embedding of `detect_mood_from_text` (main.py lines 592-623).
`aiRaw` is the lowercased, stripped mood word the LLM returned, or
`none` when the client is unavailable or the call raises (both those
paths return the user's current mood, defaulting to "neutral"). -/
def detect_mood_from_text (currentMood : Option String)
    (aiRaw : Option String) : String :=
  match aiRaw with
  | none => currentMood.getD "neutral"
  | some raw =>
    let mood := mood_map raw
    if mood ∈ valid_moods then mood else "neutral"

/-- The passive mood update scheduled by `enhanced_handle_message`
(main.py lines 1567-1577): store the detected mood only when it is
non-empty, not "neutral" and differs from the current mood. -/
def passive_mood_update (ctx : UserCtx) (aiRaw : Option String) : UserCtx :=
  let current := ctx.mood.getD "neutral"
  let detected := detect_mood_from_text (some current) aiRaw
  if detected ≠ "" ∧ detected ≠ "neutral" ∧ detected ≠ current then
    { ctx with mood := some detected }
  else ctx

/-- Callback tag for mood buttons (main.py line 88:
`CB_MOOD_PREFIX = "mood_"`). -/
def cbMoodTag : String := "mood_"

/-- The callback payloads of the mood keyboard built by `set_mood`
(main.py lines 1247-1255). -/
def set_mood_keyboard_callbacks : List String :=
  ["mood_happy", "mood_sad", "mood_energetic", "mood_relaxed",
   "mood_focused", "mood_nostalgic", "mood_neutral"]

/-- The mood branch of `enhanced_button_handler` (main.py lines
1445-1448): for callback data with the mood tag, strip the tag and
store the remainder as the user's mood. -/
def button_set_mood (ctx : UserCtx) (data : String) : UserCtx :=
  if pyStartsWith data cbMoodTag then
    { ctx with mood := some (pyDrop data (pyLen cbMoodTag)) }
  else ctx

/-! ### Download pipeline

`active_downloads` (main.py line 98) is a set of user ids; the download
directory is modelled as the finite set of existing file paths.
-/

/-- Outcome of `download_youtube_audio_sync` as far as the callers look
at it. -/
structure SyncDlResult where
  success : Bool
  error : String
  title : String
  artist : String
  duration : Nat
  audioPath : String
deriving DecidableEq, Repr

/-- What the yt-dlp extraction produced inside
`download_youtube_audio_sync`, before the function's own size policy:
`none` when extraction/download failed or the file cannot be found
(lines 386-414, 432-444), `some (path, sizeBytes)` when a file landed
on disk. -/
inductive ExtractionOutcome where
  | failed (error : String)
  | file (path : String) (sizeBytes : Nat)
deriving DecidableEq, Repr

/-- `50.5 * 1024 * 1024` bytes: the post-download ceiling of
`download_youtube_audio_sync` (main.py line 417 compares
`size / (1024*1024) > 50.5`, exact for byte counts below 2^53). -/
def mainSizeCeiling : Nat := 52953088

/-- `50 * 1024 * 1024` bytes = 50 MiB. -/
def fiftyMiB : Nat := 52428800

/-- Embedding of `download_youtube_audio_sync` (main.py lines 361-444)
from the point where the extraction outcome is known: apply the size
policy (lines 416-420) and report.  Returns the result dict and the set
of files on disk afterwards. -/
def download_youtube_audio_sync (files : Finset String)
    (outcome : ExtractionOutcome) (title artist : String) (duration : Nat) :
    SyncDlResult × Finset String :=
  match outcome with
  | .failed err => (⟨false, err, title, artist, duration, ""⟩, files)
  | .file path sizeBytes =>
    let files := insert path files
    if sizeBytes > mainSizeCeiling then
      (⟨false, "File exceeds 50 MB Telegram limit after download",
        title, artist, duration, ""⟩, files.erase path)
    else
      (⟨true, "", title, artist, duration, path⟩, files)

/-- Result dict of `download_audio` in
src/backend/scripts/download.py, as far as the size policy goes. -/
structure BackendDlResult where
  success : Bool
  error : String
  filePath : String
  fileSize : Nat
deriving DecidableEq, Repr

/-- Embedding of `download_audio` (src/backend/scripts/download.py
lines 85-135) from the point where a downloaded file was located on
disk: the strict 50 MiB size check (lines 118-125) deletes an oversized
file and fails, otherwise the file is reported. -/
def backend_download_audio (files : Finset String) (path : String)
    (sizeBytes : Nat) : BackendDlResult × Finset String :=
  let files := insert path files
  if sizeBytes > fiftyMiB then
    (⟨false, "File exceeds 50MB limit", "", 0⟩, files.erase path)
  else
    (⟨true, "", path, sizeBytes⟩, files)

/-- State shared by the download handlers: `active_downloads` and the
set of files in the download directory. -/
structure RunState where
  active : Finset Nat
  files : Finset String
deriving DecidableEq

inductive DlOutcome where
  | alreadyInProgress
  | statusSendRaised
  | searchFailed
  | syncFailed (error : String)
  | delivered
  | deliveryError
deriving DecidableEq, Repr

/-- Embedding of `download_music` (main.py lines 748-824) from the
per-user guard onward (the preceding URL extraction/validation replies
and returns without touching `active_downloads` or the disk).
Control flow mirrored: the guard (lines 772-774), `active_downloads.add`
(line 776), the awaited initial status-message send of line 777 —
`statusSendThrows` is true when that Telegram call raises, and since it
sits before the `try` of line 779, the exception propagates out of the
handler without running the `finally` of line 824, leaving the user in
`active_downloads` — the extraction call whose outcome is the oracle
`extraction` (line 781 into `download_youtube_audio_sync`), the failure
reply (lines 783-786), delivery to Telegram — `deliverThrows` is true
when `edit_text`/`send_audio_via_bot` raises, in which case control
jumps to the `except` arms (lines 811-822), skipping the file removal
of lines 801-806 — and the `finally` discard of the lock (line 824). -/
def download_music_run (s : RunState) (uid : Nat) (statusSendThrows : Bool)
    (extraction : ExtractionOutcome) (title artist : String) (duration : Nat)
    (deliverThrows : Bool) : DlOutcome × RunState :=
  if uid ∈ s.active then (.alreadyInProgress, s)
  else
    let active1 := insert uid s.active
    if statusSendThrows then
      (.statusSendRaised, ⟨active1, s.files⟩)
    else
      let r := download_youtube_audio_sync s.files extraction title artist
          duration
      if ¬ r.1.success then
        (.syncFailed r.1.error, ⟨active1.erase uid, r.2⟩)
      else if deliverThrows then
        (.deliveryError, ⟨active1.erase uid, r.2⟩)
      else
        (.delivered, ⟨active1.erase uid, r.2.erase r.1.audioPath⟩)

/-- Embedding of `auto_download_first_result` (main.py lines 1325-1430)
from the per-user guard onward: the guard (lines 1338-1346),
`active_downloads.add` (line 1348) — only the plain assignment
`status_msg = None` (line 1349) stands between the add and the `try` of
line 1351, so unlike `download_music` every path after the add reaches
the `finally` — the YouTube search whose success is the oracle
`searchFound` (lines 1377-1384), the extraction call (line 1388), the
failure reply (lines 1390-1393), delivery (lines 1395-1406) with
`deliverThrows` sending control to the `except` arms (lines 1419-1428)
past the removal of lines 1408-1413, and the `finally` discard (line
1430). -/
def auto_download_run (s : RunState) (uid : Nat) (searchFound : Bool)
    (extraction : ExtractionOutcome) (title artist : String) (duration : Nat)
    (deliverThrows : Bool) : DlOutcome × RunState :=
  if uid ∈ s.active then (.alreadyInProgress, s)
  else
    let active1 := insert uid s.active
    if ¬ searchFound then (.searchFailed, ⟨active1.erase uid, s.files⟩)
    else
      let r := download_youtube_audio_sync s.files extraction title artist duration
      if ¬ r.1.success then
        (.syncFailed r.1.error, ⟨active1.erase uid, r.2⟩)
      else if deliverThrows then
        (.deliveryError, ⟨active1.erase uid, r.2⟩)
      else
        (.delivered, ⟨active1.erase uid, r.2.erase r.1.audioPath⟩)

/-- The closed mood enumeration as the specification states it (§3:
happy, sad, anxious, excited, calm, angry, energetic, relaxed, focused,
nostalgic).  Kept separate from `valid_moods` (which is read off the
source) so the two can be compared. -/
def specMoodEnum : List String :=
  ["happy", "sad", "anxious", "excited", "calm", "angry", "energetic",
   "relaxed", "focused", "nostalgic"]

/-- The mood-invariant predicate: the stored mood is unset or drawn
from the given vocabulary. -/
def MoodIn (vocab : List String) (ctx : UserCtx) : Prop :=
  ctx.mood = none ∨ ∃ m, ctx.mood = some m ∧ m ∈ vocab

instance (vocab : List String) (ctx : UserCtx) : Decidable (MoodIn vocab ctx) := by
  unfold MoodIn
  infer_instance

/-! ## Helper lemmas -/

/-- In every run of `download_music` that enters the `try` block (the
line-777 status send did not raise), `active_downloads` is restored: a
rejected request leaves the set unchanged, and a run that entered
removes the id it inserted in the `finally`. -/
theorem download_music_run_active (s : RunState) (uid : Nat)
    (extraction : ExtractionOutcome) (title artist : String) (duration : Nat)
    (deliverThrows : Bool) :
    (download_music_run s uid false extraction title artist duration
        deliverThrows).2.active = s.active := by
  by_cases h : uid ∈ s.active
  · simp [download_music_run, h]
  · unfold download_music_run
    simp only [h, if_false, if_neg, Bool.false_eq_true]
    split_ifs <;> simp [Finset.erase_insert h]

/-- Same for `auto_download_first_result`. -/
theorem auto_download_run_active (s : RunState) (uid : Nat)
    (searchFound : Bool) (extraction : ExtractionOutcome)
    (title artist : String) (duration : Nat) (deliverThrows : Bool) :
    (auto_download_run s uid searchFound extraction title artist duration
        deliverThrows).2.active = s.active := by
  by_cases h : uid ∈ s.active
  · simp [auto_download_run, h]
  · unfold auto_download_run
    simp only [h, if_false, if_neg]
    split_ifs <;> simp [Finset.erase_insert h]

/-- `detect_mood_from_text` either returns a word of its vocabulary or
echoes the current mood it was given. -/
theorem detect_mem_or_self (cur : String) (aiRaw : Option String) :
    detect_mood_from_text (some cur) aiRaw ∈ valid_moods
      ∨ detect_mood_from_text (some cur) aiRaw = cur := by
  cases aiRaw with
  | none => exact Or.inr rfl
  | some raw =>
    left
    show (if mood_map raw ∈ valid_moods then mood_map raw else "neutral")
        ∈ valid_moods
    split_ifs with h
    · exact h
    · decide

/-! ## Claim theorems -/

/-- C1: at most one active download per user — a download request for a
user with an active download is rejected with the already-in-progress
reply and causes no state change (in both `download_music` and
`auto_download_first_result`), and while a download for `uid` is in
flight (`uid` was inserted into `active_downloads` and not yet
discarded) any second request for the same user is stopped at the
guard.  `active_downloads` is a set, so it holds a user at most once by
construction. -/
theorem C1_single_flight_guard (s : RunState) (uid : Nat)
    (statusSendThrows : Bool) (extraction : ExtractionOutcome)
    (title artist : String) (duration : Nat)
    (searchFound deliverThrows : Bool) :
    (uid ∈ s.active →
      download_music_run s uid statusSendThrows extraction title artist
          duration deliverThrows = (.alreadyInProgress, s)
        ∧ auto_download_run s uid searchFound extraction title artist duration
            deliverThrows = (.alreadyInProgress, s))
    ∧ (uid ∉ s.active →
        ∀ (st2 : Bool) (f2 : Finset String) (e2 : ExtractionOutcome)
          (t2 a2 : String) (d2 : Nat) (dt2 : Bool),
          (download_music_run ⟨insert uid s.active, f2⟩ uid st2 e2 t2 a2 d2
              dt2).1 = .alreadyInProgress) := by
  constructor
  · intro h
    constructor <;> simp [download_music_run, auto_download_run, h]
  · intro _ st2 f2 e2 t2 a2 d2 dt2
    simp [download_music_run]

/-- Witness for C1 at concrete inputs: user 7 already active is
rejected without state change, and a second request while 7 is in
flight is rejected at the guard. -/
theorem C1_single_flight_guard_witness :
    download_music_run ⟨{7}, ∅⟩ 7 false (.failed "e") "t" "a" 0 false
        = (.alreadyInProgress, ⟨{7}, ∅⟩)
      ∧ (download_music_run ⟨insert 7 (∅ : Finset Nat), ∅⟩ 7 false
          (.failed "e") "t" "a" 0 false).1 = .alreadyInProgress := by
  refine ⟨((C1_single_flight_guard ⟨{7}, ∅⟩ 7 false (.failed "e") "t" "a" 0
      false false).1 (by decide)).1, ?_⟩
  exact (C1_single_flight_guard ⟨∅, ∅⟩ 7 false (.failed "e") "t" "a" 0 false
      false).2 (by decide) false ∅ (.failed "e") "t" "a" 0 false

/-- C3 counterexample, refuting both halves of the claim.  First: a run
of `download_music` in which the extraction succeeds and delivery
throws reaches a terminal outcome with the lock released, yet the
artifact is still on disk — the removal of main.py lines 801-806 sits
inside the `try`, not in the `finally`, so it is skipped when delivery
raises.  Second: when the awaited status-message send of line 777
raises, the exception propagates before the `try` of line 779 is
entered, so the `finally` of line 824 never runs and the per-user lock
is not released either. -/
theorem C3_counterexample :
    ((download_music_run ⟨∅, ∅⟩ 7 false (.file "a.m4a" 1000) "t" "a" 10
          true).1 = .deliveryError
      ∧ (download_music_run ⟨∅, ∅⟩ 7 false (.file "a.m4a" 1000) "t" "a" 10
          true).2.active = ∅
      ∧ "a.m4a" ∈ (download_music_run ⟨∅, ∅⟩ 7 false (.file "a.m4a" 1000)
          "t" "a" 10 true).2.files)
    ∧ (download_music_run ⟨∅, ∅⟩ 7 true (.file "a.m4a" 1000) "t" "a" 10
        false).2.active = {7} := by
  decide

/-- C3 amended: in `auto_download_first_result` the per-user lock is
released on every outcome (nothing awaited stands between the add and
the `try`, so the `finally` always runs).  In `download_music` the lock
is released on every outcome of a run that entered the `try` block,
i.e. whose initial status-message send (line 777) did not raise; when
that send raises, the user stays in `active_downloads` (the lock
leaks).  The artifact file is removed when delivery completes without
raising, but may be left behind when delivery throws. -/
theorem C3_cleanup_amended (s : RunState) (uid : Nat)
    (extraction : ExtractionOutcome) (title artist : String) (duration : Nat)
    (searchFound deliverThrows : Bool) :
    (auto_download_run s uid searchFound extraction title artist duration
        deliverThrows).2.active = s.active
      ∧ (download_music_run s uid false extraction title artist duration
          deliverThrows).2.active = s.active
      ∧ (uid ∉ s.active →
          (download_music_run s uid true extraction title artist duration
              deliverThrows).2.active = insert uid s.active)
      ∧ (∀ path sizeBytes, uid ∉ s.active →
          extraction = .file path sizeBytes → sizeBytes ≤ mainSizeCeiling →
          deliverThrows = false →
          path ∉ (download_music_run s uid false extraction title artist
              duration deliverThrows).2.files) := by
  refine ⟨auto_download_run_active s uid searchFound extraction title artist
      duration deliverThrows,
    download_music_run_active s uid extraction title artist duration
      deliverThrows, ?_, ?_⟩
  · intro hmem
    simp [download_music_run, hmem]
  · intro path sizeBytes hmem hext hsize hdt
    subst hext hdt
    unfold download_music_run download_youtube_audio_sync
    simp only [hmem, if_neg, if_false, Bool.false_eq_true]
    rw [if_neg (by omega : ¬ sizeBytes > mainSizeCeiling)]
    simp

/-- Witness for C3 amended at concrete inputs: a clean run removes the
artifact and releases the lock, while a run whose status send raises
leaves user 7 locked. -/
theorem C3_cleanup_amended_witness :
    (download_music_run ⟨∅, ∅⟩ 7 false (.file "a.m4a" 1000) "t" "a" 10
        false).2.active = ∅
      ∧ "a.m4a" ∉ (download_music_run ⟨∅, ∅⟩ 7 false (.file "a.m4a" 1000)
          "t" "a" 10 false).2.files
      ∧ (download_music_run ⟨∅, ∅⟩ 7 true (.file "a.m4a" 1000) "t" "a" 10
          false).2.active = insert 7 ∅ := by
  have h := C3_cleanup_amended ⟨∅, ∅⟩ 7 (.file "a.m4a" 1000) "t" "a" 10
      false false
  exact ⟨h.2.1, h.2.2.2 "a.m4a" 1000 (by decide) rfl (by decide) rfl,
    h.2.2.1 (by decide)⟩

/-- C6 counterexample: an artifact of 52 500 000 bytes exceeds the
50 MiB ceiling (50 MiB = 52 428 800 bytes) yet passes the post-download
check of main.py line 417, which only rejects above 50.5 MB
(52 953 088 bytes): the download succeeds and the artifact is
delivered.  This refutes the claim that no artifact exceeding 50 MiB is
ever delivered. -/
theorem C6_counterexample :
    fiftyMiB < 52500000
      ∧ (download_youtube_audio_sync ∅ (.file "big.m4a" 52500000) "t" "a"
          10).1.success = true
      ∧ (download_music_run ⟨∅, ∅⟩ 7 false (.file "big.m4a" 52500000) "t"
          "a" 10 false).1 = .delivered := by
  decide

/-- C6 amended: `download_youtube_audio_sync` (main.py) rejects above
its 50.5 MB buffer threshold — the file is deleted immediately, the
size-policy error is reported, and the enclosing `download_music` run
(which reached the extraction, so its line-777 status send necessarily
succeeded) leaves no download active for the user — while
`download_audio` (src/backend/scripts/download.py) enforces the strict
50 MiB ceiling, deleting the file and failing. -/
theorem C6_size_policy_amended (s : RunState) (uid : Nat)
    (files : Finset String) (path title artist : String)
    (duration sizeBytes : Nat) (deliverThrows : Bool) :
    (sizeBytes > mainSizeCeiling →
      (download_youtube_audio_sync files (.file path sizeBytes) title artist
          duration).1.success = false
        ∧ (download_youtube_audio_sync files (.file path sizeBytes) title
            artist duration).1.error
            = "File exceeds 50 MB Telegram limit after download"
        ∧ path ∉ (download_youtube_audio_sync files (.file path sizeBytes)
            title artist duration).2
        ∧ (download_music_run s uid false (.file path sizeBytes) title artist
            duration deliverThrows).2.active = s.active)
    ∧ (sizeBytes > fiftyMiB →
      (backend_download_audio files path sizeBytes).1.success = false
        ∧ path ∉ (backend_download_audio files path sizeBytes).2) := by
  constructor
  · intro h
    refine ⟨?_, ?_, ?_, download_music_run_active s uid (.file path sizeBytes)
        title artist duration deliverThrows⟩ <;>
      simp [download_youtube_audio_sync, h]
  · intro h
    constructor <;> simp [backend_download_audio, h]

/-- Witness for C6 amended at the spec's own 60 MiB scenario
(62 914 560 bytes). -/
theorem C6_size_policy_amended_witness :
    (download_youtube_audio_sync ∅ (.file "f.m4a" 62914560) "t" "a"
        10).1.success = false
      ∧ "f.m4a" ∉ (backend_download_audio ∅ "f.m4a" 62914560).2 := by
  have h := C6_size_policy_amended ⟨∅, ∅⟩ 7 ∅ "f.m4a" "t" "a" 10 62914560
      false
  exact ⟨(h.1 (by decide)).1, (h.2 (by decide)).2⟩

/-- C4 counterexample: starting from a stored history of 12 entries, a
successful `generate_chat_response` leaves 14 entries — the truncation
to 12 (main.py line 504) runs before the exchange is appended (lines
544-547), not after, so the stored history exceeds 12 right after the
append.  This refutes the claim that the stored history never exceeds
12 after an appending operation. -/
theorem C4_counterexample :
    (generate_chat_response
        ⟨none, [], List.replicate 12 ⟨"user", "x"⟩, none⟩ "hi"
        (some "yo")).2.conversation_history.length = 14 := by
  decide

/-- C4 amended: the stored history never exceeds 14 entries after
`generate_chat_response` (12 retained + the 2 appended), and the bound
of 12 holds for the history the function keeps and uses before the
append — the truncation keeps the most recent entries, evicting the
oldest first (the kept part is a suffix of the original). -/
theorem C4_history_bound_amended (ctx : UserCtx) (message : String)
    (aiReply : Option String) :
    (generate_chat_response ctx message
        aiReply).2.conversation_history.length ≤ 14
      ∧ (lastTwelve ctx.conversation_history).length ≤ 12
      ∧ lastTwelve ctx.conversation_history <:+ ctx.conversation_history := by
  refine ⟨?_, ?_, List.drop_suffix _ _⟩
  · cases aiReply <;> simp [generate_chat_response, lastTwelve] <;> omega
  · simp only [lastTwelve, List.length_drop]
    omega

/-- C8: in the `AwaitingCode` state of the Spotify linking flow, an
input whose extracted code is missing or shorter than 50 characters is
rejected without a transition — `spotify_code_handler` returns the
`SPOTIFY_CODE` state, sends the "too short" message, attempts no token
exchange, and leaves the user's stored context (hence the account link)
unchanged. -/
theorem C8_awaiting_code_short_reject (key : Nat) (messageText : String)
    (args : List String) (ctx : UserCtx) (exchange : Option TokenData)
    (h : ∀ c, extract_code messageText args = some c → pyLen c < 50) :
    spotify_code_handler key messageText args ctx exchange
      = ⟨SPOTIFY_CODE, ctx, true, false⟩ := by
  unfold spotify_code_handler
  cases hc : extract_code messageText args with
  | none => rfl
  | some c => simp [h c hc]

/-- Witness for C8: the spec's 45-character pasted string is rejected
in place. -/
theorem C8_awaiting_code_short_reject_witness :
    spotify_code_handler 1 "ABCDEFGHIJKLMNOPQRSTUVWXYZ0123456789abcdefghi"
        [] UserCtx.default none
      = ⟨SPOTIFY_CODE, UserCtx.default, true, false⟩ := by
  apply C8_awaiting_code_short_reject
  intro c hc
  have he : extract_code "ABCDEFGHIJKLMNOPQRSTUVWXYZ0123456789abcdefghi"
      ([] : List String)
      = some "ABCDEFGHIJKLMNOPQRSTUVWXYZ0123456789abcdefghi" := by decide
  rw [he] at hc
  injection hc with h
  rw [← h]
  decide

/-- C10: `clear_history` empties only the conversation history — the
mood, genre preferences and linked Spotify data of the user's context
are unchanged — and for a user with no non-empty history (or no context
at all) it changes nothing. -/
theorem C10_clear_history_frame (c : UserCtx) :
    (∃ c', (clear_history (some c)).1 = some c'
        ∧ c'.mood = c.mood ∧ c'.preferences = c.preferences
        ∧ c'.spotify = c.spotify ∧ c'.conversation_history = [])
      ∧ (c.conversation_history = [] →
          clear_history (some c) = (some c, false))
      ∧ clear_history none = (none, false) := by
  refine ⟨?_, ?_, rfl⟩
  · by_cases h : c.conversation_history = []
    · refine ⟨c, ?_, rfl, rfl, rfl, h⟩
      simp [clear_history, h]
    · refine ⟨{ c with conversation_history := [] }, ?_, rfl, rfl, rfl, rfl⟩
      simp [clear_history, h]
  · intro h
    simp [clear_history, h]

/-- Witness for C10: clearing a fresh default context is a no-op. -/
theorem C10_clear_history_frame_witness :
    clear_history (some UserCtx.default) = (some UserCtx.default, false) :=
  (C10_clear_history_frame UserCtx.default).2.1 rfl

/-- C5 counterexample: the message "lyrics for Hello" is not a platform
URL and starts with the lyrics keyword "lyrics for" with non-empty
remainder, yet `enhanced_handle_message` awaits the LLM music
classification first (main.py line 1581, before the heuristic scan of
lines 1618-1630); when that classification flags the message as a music
request with a query, the message is handled as a music request, not as
a lyrics request.  This refutes both halves of the claim: the LLM is
consulted, and the lyrics rule does not win. -/
theorem C5_counterexample :
    is_valid_youtube_url "lyrics for Hello" = false
      ∧ lyricsCandidate "lyrics for Hello" = some "Hello"
      ∧ enhanced_handle_message_route "lyrics for Hello" ⟨true, some "Hello"⟩
          = (.musicRequest "Hello", true) := by
  decide

/-- C5 amended: for a non-URL message the LLM music classification is
always consulted first; a message starting with a lyrics keyword with
non-empty remainder is handled as a lyrics request exactly when the LLM
classification does not flag it as a music request with a query. -/
theorem C5_lyrics_routing_amended (text : String) (ai : AiMusicEval)
    (q : String) (hurl : is_valid_youtube_url text = false)
    (hai : ai.isMusic = false ∨ ai.songQuery = none)
    (hlyr : lyricsCandidate text = some q) :
    enhanced_handle_message_route text ai = (.lyricsRequest q, true) := by
  obtain ⟨im, sq⟩ := ai
  simp only [enhanced_handle_message_route, hurl, Bool.false_eq_true,
    if_false]
  rcases hai with h | h
  · simp only at h
    subst h
    simp [hlyr]
  · simp only at h
    subst h
    cases im <;> simp [hlyr]

/-- Witness for C5 amended: when the LLM does not claim the message,
"lyrics for Hello" is routed to the lyrics branch with the LLM having
been consulted. -/
theorem C5_lyrics_routing_amended_witness :
    enhanced_handle_message_route "lyrics for Hello" ⟨false, none⟩
      = (.lyricsRequest "Hello", true) :=
  C5_lyrics_routing_amended "lyrics for Hello" ⟨false, none⟩ "Hello"
    (by decide) (Or.inl rfl) (by decide)

/-- C9 counterexample: the mood keyboard of `set_mood` (main.py line
1254) offers the payload "mood_neutral", and the button handler stores
the mood "neutral" (lines 1445-1448) — a value outside the ten-value
closed set the claim states.  This refutes the claimed invariant. -/
theorem C9_counterexample :
    "mood_neutral" ∈ set_mood_keyboard_callbacks
      ∧ (button_set_mood UserCtx.default "mood_neutral").mood
          = some "neutral"
      ∧ "neutral" ∉ specMoodEnum := by
  decide

/-- C9 amended: after the mood-writing operations (a mood-keyboard
button press and the passive mood re-estimation), the stored mood is
unset or one of the eleven values of `valid_moods` (the spec's ten plus
"neutral", main.py line 613). -/
theorem C9_mood_invariant_amended (ctx : UserCtx) (data : String)
    (aiRaw : Option String) (hinv : MoodIn valid_moods ctx) :
    (data ∈ set_mood_keyboard_callbacks →
      MoodIn valid_moods (button_set_mood ctx data))
    ∧ MoodIn valid_moods (passive_mood_update ctx aiRaw) := by
  constructor
  · intro hd
    fin_cases hd <;> exact Or.inr ⟨_, rfl, by decide⟩
  · unfold passive_mood_update
    dsimp only
    split_ifs with h
    · rcases detect_mem_or_self (ctx.mood.getD "neutral") aiRaw with hm | he
      · exact Or.inr ⟨_, rfl, hm⟩
      · exact absurd he h.2.2
    · exact hinv

/-- Witness for C9 amended applied at a concrete reachable state: a
default context and the "mood_happy" button. -/
theorem C9_mood_invariant_amended_witness :
    MoodIn valid_moods (button_set_mood UserCtx.default "mood_happy")
      ∧ MoodIn valid_moods (passive_mood_update UserCtx.default
          (some "joyful")) := by
  have h := C9_mood_invariant_amended UserCtx.default "mood_happy"
      (some "joyful") (Or.inl rfl)
  exact ⟨h.1 (by decide), h.2⟩

/-- C2 counterexample: when the token endpoint answers the refresh
exchange with HTTP 400 (invalid grant), `refresh_spotify_token` clears
the stored spotify dict (main.py lines 289-295) — the stored token
state after the call differs from the state before it.  This refutes
the claim that every failure mid-exchange leaves the stored state
unchanged. -/
theorem C2_counterexample :
    refresh_spotify_token 1 1000
        (some ⟨some (encrypt 1 "acc"), some (encrypt 1 "ref"), some 500⟩)
        (.clientError (some 400))
        = ⟨none, some SpotifyData.empty⟩
      ∧ (some SpotifyData.empty : SpotifyState)
          ≠ some ⟨some (encrypt 1 "acc"), some (encrypt 1 "ref"),
              some 500⟩ := by
  decide

/-- C2 amended: with a stored, decryptable refresh token, a successful
exchange replaces the encrypted access token, the encrypted refresh
token and the expiry together (both tokens always set as a pair); a
2xx body without an access token, a transient client error (any status
other than 400) and any other exception all leave the stored state
exactly as it was; an invalid-grant (HTTP 400) response clears the
stored spotify dict entirely — state changes, but never to a
half-updated pair. -/
theorem C2_refresh_atomicity_amended (key now : Nat) (d : SpotifyData)
    (encRefresh : Ciph) (refreshStr : String)
    (hrt : d.refresh_token = some encRefresh)
    (hdec : decrypt key encRefresh = some refreshStr) :
    (∀ acc tr ei,
      refresh_spotify_token key now (some d) (.ok (some acc) tr ei)
        = ⟨some acc,
            some ⟨some (encrypt key acc),
              some (encrypt key (tr.getD refreshStr)),
              some (now + ei - 60)⟩⟩)
    ∧ (∀ tr ei, refresh_spotify_token key now (some d) (.ok none tr ei)
        = ⟨none, some d⟩)
    ∧ (∀ st, st ≠ some 400 →
        refresh_spotify_token key now (some d) (.clientError st)
          = ⟨none, some d⟩)
    ∧ refresh_spotify_token key now (some d) .otherError = ⟨none, some d⟩
    ∧ refresh_spotify_token key now (some d) (.clientError (some 400))
        = ⟨none, some SpotifyData.empty⟩ := by
  refine ⟨?_, ?_, ?_, ?_, ?_⟩ <;>
    simp_all [refresh_spotify_token]

/-- Witness for C2 amended at concrete inputs: a successful exchange
rotating both tokens, and a transient failure leaving the pair
untouched. -/
theorem C2_refresh_atomicity_amended_witness :
    refresh_spotify_token 1 1000
        (some ⟨some (encrypt 1 "a"), some (encrypt 1 "r"), some 5⟩)
        (.ok (some "na") (some "nr") 3600)
        = ⟨some "na",
            some ⟨some (encrypt 1 "na"),
              some (encrypt 1 ((some "nr").getD "r")),
              some (1000 + 3600 - 60)⟩⟩
      ∧ refresh_spotify_token 1 1000
          (some ⟨some (encrypt 1 "a"), some (encrypt 1 "r"), some 5⟩)
          (.clientError none)
          = ⟨none, some ⟨some (encrypt 1 "a"), some (encrypt 1 "r"),
              some 5⟩⟩ := by
  have h := C2_refresh_atomicity_amended 1 1000
      ⟨some (encrypt 1 "a"), some (encrypt 1 "r"), some 5⟩
      (encrypt 1 "r") "r" rfl (by decide)
  exact ⟨h.1 "na" (some "nr") 3600, h.2.2.1 none (by decide)⟩

/-- C7 counterexample: user state whose stored access token fails to
decrypt while the refresh token decrypts, with the refresh exchange
failing transiently — `get_user_spotify_access_token` attempts the
refresh and returns empty, but the stored account link is left exactly
as it was, not cleared.  This refutes the claim that whenever the
repair refresh fails the stored AccountLink is cleared. -/
theorem C7_counterexample :
    decrypt 1 (encrypt 2 "acc") = none
      ∧ get_user_spotify_access_token 1 1000
          (some ⟨some (encrypt 2 "acc"), some (encrypt 1 "ref"), some 5000⟩)
          (.clientError none)
          = ⟨none,
              some ⟨some (encrypt 2 "acc"), some (encrypt 1 "ref"),
                some 5000⟩, true⟩
      ∧ (some ⟨some (encrypt 2 "acc"), some (encrypt 1 "ref"), some 5000⟩
          : SpotifyState) ≠ some SpotifyData.empty := by
  decide

/-- C7 amended: when the stored access token fails to decrypt (and is
not already treated as expired), a refresh is always invoked as a
repair attempt; the stored spotify dict is cleared and empty returned
when that refresh fails because the refresh token cannot be decrypted,
or because the provider answers invalid-grant (HTTP 400); on a
transient failure (client error without status 400) the stored state is
left untouched and empty is returned. -/
theorem C7_repair_amended (key now : Nat) (d : SpotifyData) (cA : Ciph)
    (http : HttpTokenResult) (hA : d.access_token = some cA)
    (hdecA : decrypt key cA = none)
    (hexp : (d.expires_at.map fun t => decide (now > t)).getD false
      = false) :
    (get_user_spotify_access_token key now (some d) http).refreshAttempted
        = true
      ∧ (∀ cR, d.refresh_token = some cR → decrypt key cR = none →
          get_user_spotify_access_token key now (some d) http
            = ⟨none, some SpotifyData.empty, true⟩)
      ∧ (∀ cR r, d.refresh_token = some cR → decrypt key cR = some r →
          http = .clientError (some 400) →
          get_user_spotify_access_token key now (some d) http
            = ⟨none, some SpotifyData.empty, true⟩)
      ∧ (∀ cR r st, d.refresh_token = some cR → decrypt key cR = some r →
          http = .clientError st → st ≠ some 400 →
          get_user_spotify_access_token key now (some d) http
            = ⟨none, some d, true⟩) := by
  have hmain : get_user_spotify_access_token key now (some d) http
      = ⟨(refresh_spotify_token key now (some d) http).returned,
          (refresh_spotify_token key now (some d) http).spotify, true⟩ := by
    unfold get_user_spotify_access_token
    simp [hA, hdecA, hexp]
  refine ⟨by rw [hmain], ?_, ?_, ?_⟩
  · intro cR hR hdecR
    rw [hmain]
    simp [refresh_spotify_token, hR, hdecR]
  · intro cR r hR hdecR hhttp
    subst hhttp
    rw [hmain]
    simp [refresh_spotify_token, hR, hdecR]
  · intro cR r st hR hdecR hhttp hst
    subst hhttp
    rw [hmain]
    simp [refresh_spotify_token, hR, hdecR, hst]

/-- Witness for C7 amended: both stored tokens undecryptable (the
restart-with-new-key scenario) — the repair refresh is attempted, fails
on decryption, and the stored dict is cleared with empty returned. -/
theorem C7_repair_amended_witness :
    get_user_spotify_access_token 1 1000
        (some ⟨some (encrypt 2 "acc"), some (encrypt 2 "ref"), some 5000⟩)
        .otherError
      = ⟨none, some SpotifyData.empty, true⟩ := by
  have h := C7_repair_amended 1 1000
      ⟨some (encrypt 2 "acc"), some (encrypt 2 "ref"), some 5000⟩
      (encrypt 2 "acc") .otherError rfl (by decide) (by decide)
  exact h.2.1 (encrypt 2 "ref") rfl (by decide)

end MelodyMind
